import Mathlib

/-
Verification of the `model_config` decorator of django-sharding
(src/django_sharding_library/decorators.py).

The decorator is embedded as a pure function over an explicit state:
a `ModelClass` record holds the observable aspects of the decorated
Python class (its fields, primary key, manager, and the mutable
`django_sharding__*` attributes), and a `Settings` record holds
`settings.DATABASES`.  Python raising an exception after mutating the
class in place is modelled by returning both the (possibly mutated)
class and an optional exception value.
-/

/-- An optional string-valued decorator argument, with Python truthiness:
`None` and the empty string are falsy, every other string is truthy. -/
inductive PyStr where
  | null
  | str (s : String)
deriving DecidableEq, Repr

/-- Python truthiness of the argument. -/
def PyStr.truthy : PyStr → Bool
  | PyStr.null => false
  | PyStr.str s => s != ""

/-- The underlying string (empty for `None`). -/
def PyStr.val : PyStr → String
  | PyStr.null => ""
  | PyStr.str s => s

/-- One entry of `settings.DATABASES`; `PRIMARY` is the truthiness of
`entry.get('PRIMARY')`. -/
structure DBConfig where
  PRIMARY : Bool
deriving DecidableEq, Repr

/-- The part of Django settings the decorator reads: `settings.DATABASES`
as an association list from database alias to its configuration. -/
structure Settings where
  DATABASES : List (String × DBConfig)
deriving DecidableEq, Repr

/-- A model field, with its identity (for the `field == cls._meta.pk`
comparison) and whether `issubclass(type(field), ShardedIDFieldMixin)`. -/
structure ModelField where
  fid : Nat
  shardedIDMixin : Bool
deriving DecidableEq, Repr

/-- What kind of manager `cls.objects` is: an instance of `ShardManager`
(or a subclass), exactly of class `Manager`, or anything else. -/
inductive ManagerKind where
  | shardManager
  | plainManager
  | otherManager
deriving DecidableEq, Repr

/-- The observable state of the decorated class.  `objects = none` models
`cls.objects` raising `AttributeError` on access.  The four
`django_sharding__*` attributes start absent and are set by the
decorator. -/
structure ModelClass where
  name : String
  meta_model_name : String
  meta_fields : List ModelField
  meta_pk : ModelField
  has_get_shard : Bool
  has_get_shard_from_id : Bool
  objects : Option ManagerKind
  base_manager : ManagerKind
  meta_abstract : Bool
  abstract_managers : List ManagerKind
  django_sharding__database : Option String := none
  django_sharding__shard_group : Option String := none
  django_sharding__is_sharded : Option Bool := none
  django_sharding__sharded_by_field : Option String := none
deriving DecidableEq, Repr

/-- The exceptions the decorator can raise (or re-raise). -/
inductive PyExc where
  | shardedModelInit (msg : String)
  | nonExistentDatabase (msg : String)
  | attributeError
deriving DecidableEq, Repr

/-- Whether an exception outcome is a `ShardedModelInitializationException`. -/
def isShardedInit : Option PyExc → Bool
  | some (PyExc.shardedModelInit _) => true
  | _ => false

/-- The outcome of applying the decorator: the final Django settings, the
final (possibly mutated) class, and the raised exception, if any. -/
structure ConfigResult where
  settings : Settings
  cls : ModelClass
  exc : Option PyExc
deriving DecidableEq, Repr

/-- Lines 66 to 69 of decorators.py: set `django_sharding__sharded_by_field`
and then require a callable `get_shard_from_id`. -/
def finishShardedBy (st : Settings) (sharded_by_field : PyStr) (cls : ModelClass) : ConfigResult :=
  let cls := { cls with django_sharding__sharded_by_field := some sharded_by_field.val }
  if !cls.has_get_shard_from_id then
    ⟨st, cls, some (PyExc.shardedModelInit "You must define a get_shard_from_id method on the sharded model if you define a \"sharded_by_field\".")⟩
  else
    ⟨st, cls, none⟩

/-- The `configure` closure returned by `model_config(shard_group, database,
sharded_by_field)`, applied to a class `cls` under settings `st`. -/
def model_config (shard_group database sharded_by_field : PyStr) (st : Settings) (cls : ModelClass) : ConfigResult :=
  if database.truthy && shard_group.truthy then
    ⟨st, cls, some (PyExc.shardedModelInit "A model cannot be both sharded and stored on a particular database.")⟩
  else if !database.truthy && !shard_group.truthy then
    ⟨st, cls, some (PyExc.shardedModelInit "The model should be either sharded or stored on a database in the `model_config` decorator is used.")⟩
  else
    if database.truthy then
      match st.DATABASES.lookup database.val with
      | none =>
          ⟨st, cls, some (PyExc.nonExistentDatabase ("Unable to place " ++ cls.meta_model_name ++ " in " ++ database.val ++ " as that is not an existing primary database in the system."))⟩
      | some cfg =>
          if cfg.PRIMARY then
            ⟨st, cls, some (PyExc.nonExistentDatabase ("Unable to place " ++ cls.meta_model_name ++ " in " ++ database.val ++ " as that is not an existing primary database in the system."))⟩
          else
            ⟨st, { cls with django_sharding__database := some database.val }, none⟩
    else
      let sharded_fields := cls.meta_fields.filter (fun field => field.shardedIDMixin)
      if sharded_fields.isEmpty then
        ⟨st, cls, some (PyExc.shardedModelInit "All sharded models require a ShardedIDFieldMixin.")⟩
      else if (sharded_fields.filter (fun field => field == cls.meta_pk)).isEmpty then
        ⟨st, cls, some (PyExc.shardedModelInit "All sharded models require the ShardedAutoIDField to be the primary key. Set primary_key=True on the field.")⟩
      else if !cls.has_get_shard then
        ⟨st, cls, some (PyExc.shardedModelInit "You must define a get_shard method on the sharded model.")⟩
      else
        let cls := { cls with django_sharding__shard_group := some shard_group.val, django_sharding__is_sharded := some true }
        if sharded_by_field.truthy then
          match cls.objects with
          | some ManagerKind.shardManager =>
              finishShardedBy st sharded_by_field cls
          | some ManagerKind.plainManager =>
              finishShardedBy st sharded_by_field { cls with objects := some ManagerKind.shardManager, base_manager := ManagerKind.shardManager }
          | some ManagerKind.otherManager =>
              ⟨st, cls, some (PyExc.shardedModelInit "You must use the default Django model manager or your custom manager must inherit from ``ShardManager``")⟩
          | none =>
              if cls.meta_abstract then
                if !(cls.abstract_managers.length > 0) then
                  finishShardedBy st sharded_by_field { cls with objects := some ManagerKind.shardManager }
                else if !(cls.abstract_managers.any (fun m => m == ManagerKind.shardManager)) then
                  ⟨st, cls, some (PyExc.shardedModelInit ("Please either do not specify a manager in your abstract base class " ++ cls.name ++ ", or if you are using a custom manager, your custom manager must inherit from ``ShardManager``"))⟩
                else
                  finishShardedBy st sharded_by_field cls
              else
                ⟨st, cls, some PyExc.attributeError⟩
        else
          ⟨st, cls, none⟩

/-- Whether the try/except manager-handling block (lines 44 to 65) completes
without raising: `cls.objects` is a `ShardManager` instance or exactly a
`Manager`, or the `AttributeError` path succeeds for an abstract class. -/
def managerHandlingOk (cls : ModelClass) : Bool :=
  match cls.objects with
  | some ManagerKind.shardManager => true
  | some ManagerKind.plainManager => true
  | some ManagerKind.otherManager => false
  | none =>
      cls.meta_abstract &&
        (!(cls.abstract_managers.length > 0) || cls.abstract_managers.any (fun m => m == ManagerKind.shardManager))

/-! Helper lemmas about the shared tail of the sharded-by-field handling. -/

theorem finishShardedBy_cls (st : Settings) (sbf : PyStr) (cls : ModelClass) :
    (finishShardedBy st sbf cls).cls =
      { cls with django_sharding__sharded_by_field := some sbf.val } := by
  cases h : cls.has_get_shard_from_id <;> simp [finishShardedBy, h]

theorem finishShardedBy_settings (st : Settings) (sbf : PyStr) (cls : ModelClass) :
    (finishShardedBy st sbf cls).settings = st := by
  cases h : cls.has_get_shard_from_id <;> simp [finishShardedBy, h]

theorem finishShardedBy_exc (st : Settings) (sbf : PyStr) (cls : ModelClass) :
    (finishShardedBy st sbf cls).exc =
      if cls.has_get_shard_from_id then none
      else some (PyExc.shardedModelInit "You must define a get_shard_from_id method on the sharded model if you define a \"sharded_by_field\".") := by
  unfold finishShardedBy
  cases h : cls.has_get_shard_from_id <;> simp [h]

/-! Concrete sample data used by witness theorems. -/

def sampleField : ModelField := ⟨0, true⟩

def sampleCls : ModelClass :=
  { name := "User"
    meta_model_name := "user"
    meta_fields := [sampleField]
    meta_pk := sampleField
    has_get_shard := true
    has_get_shard_from_id := true
    objects := some ManagerKind.plainManager
    base_manager := ManagerKind.plainManager
    meta_abstract := false
    abstract_managers := [] }

def sampleSettings : Settings := ⟨[("default", ⟨false⟩), ("pri", ⟨true⟩)]⟩

/-- C1: a truthy database together with a truthy shard_group raises
ShardedModelInitializationException and leaves the class unmodified. -/
theorem model_config_both_raises (shard_group database sharded_by_field : PyStr)
    (st : Settings) (cls : ModelClass)
    (hdb : database.truthy = true) (hsg : shard_group.truthy = true) :
    model_config shard_group database sharded_by_field st cls =
      ⟨st, cls, some (PyExc.shardedModelInit "A model cannot be both sharded and stored on a particular database.")⟩ := by
  simp [model_config, hdb, hsg]

/-- Witness for C1 at a concrete class and concrete truthy arguments. -/
theorem model_config_both_raises_witness :
    (PyStr.str "default").truthy = true ∧ (PyStr.str "sg").truthy = true ∧
    model_config (PyStr.str "sg") (PyStr.str "default") PyStr.null sampleSettings sampleCls =
      ⟨sampleSettings, sampleCls, some (PyExc.shardedModelInit "A model cannot be both sharded and stored on a particular database.")⟩ :=
  ⟨by decide, by decide,
    model_config_both_raises (PyStr.str "sg") (PyStr.str "default") PyStr.null sampleSettings sampleCls (by decide) (by decide)⟩

/-- C7: when both the database and the shard_group arguments are falsy the
decorator raises ShardedModelInitializationException and leaves the class
unmodified. -/
theorem model_config_neither_raises (shard_group database sharded_by_field : PyStr)
    (st : Settings) (cls : ModelClass)
    (hdb : database.truthy = false) (hsg : shard_group.truthy = false) :
    model_config shard_group database sharded_by_field st cls =
      ⟨st, cls, some (PyExc.shardedModelInit "The model should be either sharded or stored on a database in the `model_config` decorator is used.")⟩ := by
  simp [model_config, hdb, hsg]

/-- Witness for C7 with both arguments omitted. -/
theorem model_config_neither_raises_witness :
    (PyStr.null).truthy = false ∧
    model_config PyStr.null PyStr.null PyStr.null sampleSettings sampleCls =
      ⟨sampleSettings, sampleCls, some (PyExc.shardedModelInit "The model should be either sharded or stored on a database in the `model_config` decorator is used.")⟩ :=
  ⟨by decide,
    model_config_neither_raises PyStr.null PyStr.null PyStr.null sampleSettings sampleCls (by decide) (by decide)⟩

/-- C2: with a truthy database and no shard_group, a missing or PRIMARY
database entry raises NonExistentDatabaseException, and otherwise
`django_sharding__database` is set and the class is returned with no
exception. -/
theorem model_config_database_branch (shard_group database sharded_by_field : PyStr)
    (st : Settings) (cls : ModelClass)
    (hdb : database.truthy = true) (hsg : shard_group.truthy = false) :
    (st.DATABASES.lookup database.val = none →
      model_config shard_group database sharded_by_field st cls =
        ⟨st, cls, some (PyExc.nonExistentDatabase ("Unable to place " ++ cls.meta_model_name ++ " in " ++ database.val ++ " as that is not an existing primary database in the system."))⟩) ∧
    (∀ cfg : DBConfig, st.DATABASES.lookup database.val = some cfg → cfg.PRIMARY = true →
      model_config shard_group database sharded_by_field st cls =
        ⟨st, cls, some (PyExc.nonExistentDatabase ("Unable to place " ++ cls.meta_model_name ++ " in " ++ database.val ++ " as that is not an existing primary database in the system."))⟩) ∧
    (∀ cfg : DBConfig, st.DATABASES.lookup database.val = some cfg → cfg.PRIMARY = false →
      model_config shard_group database sharded_by_field st cls =
        ⟨st, { cls with django_sharding__database := some database.val }, none⟩) :=
  ⟨fun h => by simp [model_config, hdb, hsg, h],
   fun cfg h hp => by simp [model_config, hdb, hsg, h, hp],
   fun cfg h hp => by simp [model_config, hdb, hsg, h, hp]⟩

/-- Witness for C2: storing a class on the existing non-PRIMARY database
"default" sets the attribute and raises nothing. -/
theorem model_config_database_branch_witness :
    (PyStr.str "default").truthy = true ∧ (PyStr.null).truthy = false ∧
    sampleSettings.DATABASES.lookup "default" = some ⟨false⟩ ∧
    model_config PyStr.null (PyStr.str "default") PyStr.null sampleSettings sampleCls =
      ⟨sampleSettings, { sampleCls with django_sharding__database := some "default" }, none⟩ :=
  ⟨by decide, by decide, by decide,
    (model_config_database_branch PyStr.null (PyStr.str "default") PyStr.null sampleSettings sampleCls
      (by decide) (by decide)).2.2 ⟨false⟩ (by decide) rfl⟩

/-- C10: the database argument is tested for truthiness, so the empty string
behaves exactly like an omitted database, and with no shard_group the
decorator raises the should-be-either ShardedModelInitializationException
rather than NonExistentDatabaseException. -/
theorem model_config_empty_database_string (shard_group sharded_by_field : PyStr)
    (st : Settings) (cls : ModelClass) :
    model_config shard_group (PyStr.str "") sharded_by_field st cls =
      model_config shard_group PyStr.null sharded_by_field st cls ∧
    (model_config PyStr.null (PyStr.str "") sharded_by_field st cls).exc =
      some (PyExc.shardedModelInit "The model should be either sharded or stored on a database in the `model_config` decorator is used.") := by
  constructor
  · simp [model_config, PyStr.truthy, PyStr.val]
  · rfl

/-! Small bridges between the membership phrasing of the validations and the
filter/isEmpty conditions the code tests. -/

theorem isEmpty_false_of_ne_nil {α : Type} {l : List α} (h : l ≠ []) : l.isEmpty = false := by
  cases l with
  | nil => exact absurd rfl h
  | cons a t => rfl

theorem ne_nil_of_isEmpty_false {α : Type} {l : List α} (h : l.isEmpty = false) : l ≠ [] := by
  cases l with
  | nil => simp at h
  | cons a t => simp

theorem pk_filter_isEmpty_false (cls : ModelClass)
    (hv2 : cls.meta_pk ∈ cls.meta_fields.filter (fun field => field.shardedIDMixin)) :
    ((cls.meta_fields.filter (fun field => field.shardedIDMixin)).filter (fun field => field == cls.meta_pk)).isEmpty = false :=
  isEmpty_false_of_ne_nil (List.ne_nil_of_mem (List.mem_filter.mpr ⟨hv2, by simp⟩))

theorem pk_mem_of_filter_isEmpty_false (cls : ModelClass)
    (h : ((cls.meta_fields.filter (fun field => field.shardedIDMixin)).filter (fun field => field == cls.meta_pk)).isEmpty = false) :
    cls.meta_pk ∈ cls.meta_fields.filter (fun field => field.shardedIDMixin) := by
  rcases List.exists_mem_of_ne_nil _ (ne_nil_of_isEmpty_false h) with ⟨x, hx⟩
  rcases List.mem_filter.mp hx with ⟨hmem, hbeq⟩
  have hxpk : x = cls.meta_pk := by simpa using hbeq
  rwa [hxpk] at hmem

/-- Master equation: once the shard_group validations pass, the decorator
runs exactly the sharded-by-field tail on the class with
`django_sharding__shard_group` and `django_sharding__is_sharded` set. -/
theorem model_config_shard_branch_eq (shard_group database sharded_by_field : PyStr)
    (st : Settings) (cls : ModelClass)
    (hsg : shard_group.truthy = true) (hdb : database.truthy = false)
    (h1 : (cls.meta_fields.filter (fun field => field.shardedIDMixin)).isEmpty = false)
    (h2 : ((cls.meta_fields.filter (fun field => field.shardedIDMixin)).filter (fun field => field == cls.meta_pk)).isEmpty = false)
    (h3 : cls.has_get_shard = true) :
    model_config shard_group database sharded_by_field st cls =
      (if sharded_by_field.truthy then
        match cls.objects with
        | some ManagerKind.shardManager =>
            finishShardedBy st sharded_by_field
              { cls with django_sharding__shard_group := some shard_group.val, django_sharding__is_sharded := some true }
        | some ManagerKind.plainManager =>
            finishShardedBy st sharded_by_field
              { cls with django_sharding__shard_group := some shard_group.val, django_sharding__is_sharded := some true,
                         objects := some ManagerKind.shardManager, base_manager := ManagerKind.shardManager }
        | some ManagerKind.otherManager =>
            ⟨st, { cls with django_sharding__shard_group := some shard_group.val, django_sharding__is_sharded := some true },
              some (PyExc.shardedModelInit "You must use the default Django model manager or your custom manager must inherit from ``ShardManager``")⟩
        | none =>
            if cls.meta_abstract then
              if !(cls.abstract_managers.length > 0) then
                finishShardedBy st sharded_by_field
                  { cls with django_sharding__shard_group := some shard_group.val, django_sharding__is_sharded := some true,
                             objects := some ManagerKind.shardManager }
              else if !(cls.abstract_managers.any (fun m => m == ManagerKind.shardManager)) then
                ⟨st, { cls with django_sharding__shard_group := some shard_group.val, django_sharding__is_sharded := some true },
                  some (PyExc.shardedModelInit ("Please either do not specify a manager in your abstract base class " ++ cls.name ++ ", or if you are using a custom manager, your custom manager must inherit from ``ShardManager``"))⟩
              else
                finishShardedBy st sharded_by_field
                  { cls with django_sharding__shard_group := some shard_group.val, django_sharding__is_sharded := some true }
            else
              ⟨st, { cls with django_sharding__shard_group := some shard_group.val, django_sharding__is_sharded := some true },
                some PyExc.attributeError⟩
      else
        ⟨st, { cls with django_sharding__shard_group := some shard_group.val, django_sharding__is_sharded := some true }, none⟩) := by
  simp only [model_config, hsg, hdb, h1, h2, h3, Bool.false_and, Bool.not_false, Bool.not_true,
    Bool.true_and, Bool.and_false, Bool.and_true, Bool.false_eq_true, if_false, if_true,
    Bool.not_eq_true]

/-- C3: a class decorated with a truthy shard_group and no database that
passes the field, primary-key and get_shard validations gets
`django_sharding__shard_group` set to the given value and
`django_sharding__is_sharded` set to True. -/
theorem model_config_sets_shard_group (shard_group database sharded_by_field : PyStr)
    (st : Settings) (cls : ModelClass)
    (hsg : shard_group.truthy = true) (hdb : database.truthy = false)
    (hv1 : cls.meta_fields.filter (fun field => field.shardedIDMixin) ≠ [])
    (hv2 : cls.meta_pk ∈ cls.meta_fields.filter (fun field => field.shardedIDMixin))
    (hv3 : cls.has_get_shard = true) :
    (model_config shard_group database sharded_by_field st cls).cls.django_sharding__shard_group = some shard_group.val ∧
    (model_config shard_group database sharded_by_field st cls).cls.django_sharding__is_sharded = some true := by
  have h1 := isEmpty_false_of_ne_nil hv1
  have h2 := pk_filter_isEmpty_false cls hv2
  rw [model_config_shard_branch_eq shard_group database sharded_by_field st cls hsg hdb h1 h2 hv3]
  cases hsbf : sharded_by_field.truthy with
  | false => simp [hsbf]
  | true =>
      rcases hobj : cls.objects with _ | mk
      · by_cases habs : cls.meta_abstract = true
        · by_cases hlen : cls.abstract_managers.length > 0
          · by_cases hany : cls.abstract_managers.any (fun m => m == ManagerKind.shardManager) = true
            · simp [finishShardedBy_cls, hsbf, hobj, habs, hlen, hany]
            · simp [hsbf, hobj, habs, hlen, hany]
          · simp [finishShardedBy_cls, hsbf, hobj, habs, hlen]
        · simp [hsbf, hobj, habs]
      · cases mk <;> simp [finishShardedBy_cls, hsbf, hobj]

/-- Witness for C3 at a concrete valid sharded class. -/
theorem model_config_sets_shard_group_witness :
    (PyStr.str "sg").truthy = true ∧ (PyStr.null).truthy = false ∧
    sampleCls.meta_fields.filter (fun field => field.shardedIDMixin) ≠ [] ∧
    sampleCls.meta_pk ∈ sampleCls.meta_fields.filter (fun field => field.shardedIDMixin) ∧
    sampleCls.has_get_shard = true ∧
    ((model_config (PyStr.str "sg") PyStr.null PyStr.null sampleSettings sampleCls).cls.django_sharding__shard_group = some "sg" ∧
     (model_config (PyStr.str "sg") PyStr.null PyStr.null sampleSettings sampleCls).cls.django_sharding__is_sharded = some true) :=
  ⟨by decide, by decide, by decide, by decide, by decide,
    model_config_sets_shard_group (PyStr.str "sg") PyStr.null PyStr.null sampleSettings sampleCls
      (by decide) (by decide) (by decide) (by decide) (by decide)⟩

/-- C4: with a truthy shard_group, failing any of the three validations (a
ShardedIDFieldMixin field exists, one such field is the primary key, and
get_shard is callable) makes the decorator raise
ShardedModelInitializationException. -/
theorem model_config_shard_validations (shard_group database sharded_by_field : PyStr)
    (st : Settings) (cls : ModelClass)
    (hsg : shard_group.truthy = true)
    (hv : ¬(cls.meta_fields.filter (fun field => field.shardedIDMixin) ≠ [] ∧
            cls.meta_pk ∈ cls.meta_fields.filter (fun field => field.shardedIDMixin) ∧
            cls.has_get_shard = true)) :
    isShardedInit (model_config shard_group database sharded_by_field st cls).exc = true := by
  by_cases hdb : database.truthy = true
  · simp only [model_config, isShardedInit, hdb, hsg, Bool.true_and, Bool.and_true, if_true]
  · rw [Bool.not_eq_true] at hdb
    by_cases h1 : (cls.meta_fields.filter (fun field => field.shardedIDMixin)).isEmpty = true
    · simp only [model_config, isShardedInit, hdb, hsg, h1, Bool.false_and, Bool.not_false,
        Bool.not_true, Bool.true_and, Bool.false_eq_true, if_false, if_true]
    · rw [Bool.not_eq_true] at h1
      by_cases h2 : ((cls.meta_fields.filter (fun field => field.shardedIDMixin)).filter (fun field => field == cls.meta_pk)).isEmpty = true
      · simp only [model_config, isShardedInit, hdb, hsg, h1, h2, Bool.false_and, Bool.not_false,
          Bool.not_true, Bool.true_and, Bool.false_eq_true, if_false, if_true]
      · rw [Bool.not_eq_true] at h2
        by_cases h3 : cls.has_get_shard = true
        · exact absurd ⟨ne_nil_of_isEmpty_false h1, pk_mem_of_filter_isEmpty_false cls h2, h3⟩ hv
        · rw [Bool.not_eq_true] at h3
          simp only [model_config, isShardedInit, hdb, hsg, h1, h2, h3, Bool.false_and,
            Bool.not_false, Bool.not_true, Bool.true_and, Bool.false_eq_true, if_false, if_true]

def noShardedFieldCls : ModelClass := { sampleCls with meta_fields := [⟨0, false⟩], meta_pk := ⟨0, false⟩ }

/-- Witness for C4 at a concrete class with no ShardedIDFieldMixin field. -/
theorem model_config_shard_validations_witness :
    (PyStr.str "sg").truthy = true ∧
    ¬(noShardedFieldCls.meta_fields.filter (fun field => field.shardedIDMixin) ≠ [] ∧
      noShardedFieldCls.meta_pk ∈ noShardedFieldCls.meta_fields.filter (fun field => field.shardedIDMixin) ∧
      noShardedFieldCls.has_get_shard = true) ∧
    isShardedInit (model_config (PyStr.str "sg") PyStr.null PyStr.null sampleSettings noShardedFieldCls).exc = true :=
  ⟨by decide, by decide,
    model_config_shard_validations (PyStr.str "sg") PyStr.null PyStr.null sampleSettings noShardedFieldCls
      (by decide) (by decide)⟩

/-- C8: the decorator never touches settings, and mutates nothing of the
class beyond the django_sharding attributes and the managers: name, meta
data, fields, primary key, method flags and abstract-manager data are
preserved on every path. -/
theorem model_config_frame (shard_group database sharded_by_field : PyStr)
    (st : Settings) (cls : ModelClass) :
    (model_config shard_group database sharded_by_field st cls).settings = st ∧
    (model_config shard_group database sharded_by_field st cls).cls.name = cls.name ∧
    (model_config shard_group database sharded_by_field st cls).cls.meta_model_name = cls.meta_model_name ∧
    (model_config shard_group database sharded_by_field st cls).cls.meta_fields = cls.meta_fields ∧
    (model_config shard_group database sharded_by_field st cls).cls.meta_pk = cls.meta_pk ∧
    (model_config shard_group database sharded_by_field st cls).cls.has_get_shard = cls.has_get_shard ∧
    (model_config shard_group database sharded_by_field st cls).cls.has_get_shard_from_id = cls.has_get_shard_from_id ∧
    (model_config shard_group database sharded_by_field st cls).cls.meta_abstract = cls.meta_abstract ∧
    (model_config shard_group database sharded_by_field st cls).cls.abstract_managers = cls.abstract_managers := by
  by_cases hdb : database.truthy = true
  · by_cases hsg : shard_group.truthy = true
    · simp [model_config, hdb, hsg]
    · rw [Bool.not_eq_true] at hsg
      rcases hlk : st.DATABASES.lookup database.val with _ | cfg
      · simp [model_config, hdb, hsg, hlk]
      · by_cases hp : cfg.PRIMARY = true
        · simp [model_config, hdb, hsg, hlk, hp]
        · rw [Bool.not_eq_true] at hp
          simp [model_config, hdb, hsg, hlk, hp]
  · rw [Bool.not_eq_true] at hdb
    by_cases hsg : shard_group.truthy = true
    · by_cases h1 : (cls.meta_fields.filter (fun field => field.shardedIDMixin)).isEmpty = true
      · simp only [model_config, hdb, hsg, h1, Bool.false_and, Bool.not_false, Bool.not_true,
          Bool.true_and, Bool.false_eq_true, if_false, if_true]
        simp
      · rw [Bool.not_eq_true] at h1
        by_cases h2 : ((cls.meta_fields.filter (fun field => field.shardedIDMixin)).filter (fun field => field == cls.meta_pk)).isEmpty = true
        · simp only [model_config, hdb, hsg, h1, h2, Bool.false_and, Bool.not_false, Bool.not_true,
            Bool.true_and, Bool.false_eq_true, if_false, if_true]
          simp
        · rw [Bool.not_eq_true] at h2
          by_cases h3 : cls.has_get_shard = true
          · rw [model_config_shard_branch_eq shard_group database sharded_by_field st cls hsg hdb h1 h2 h3]
            cases hsbf : sharded_by_field.truthy with
            | false => simp [hsbf]
            | true =>
                rcases hobj : cls.objects with _ | mk
                · by_cases habs : cls.meta_abstract = true
                  · by_cases hlen : cls.abstract_managers.length > 0
                    · by_cases hany : (cls.abstract_managers.any (fun m => m == ManagerKind.shardManager)) = true
                      · simp [finishShardedBy_cls, finishShardedBy_settings, hsbf, hobj, habs, hlen, hany]
                      · simp [hsbf, hobj, habs, hlen, hany]
                    · simp [finishShardedBy_cls, finishShardedBy_settings, hsbf, hobj, habs, hlen]
                  · simp [hsbf, hobj, habs]
                · cases mk <;> simp [finishShardedBy_cls, finishShardedBy_settings, hsbf, hobj]
          · rw [Bool.not_eq_true] at h3
            simp only [model_config, hdb, hsg, h1, h2, h3, Bool.false_and, Bool.not_false,
              Bool.not_true, Bool.true_and, Bool.false_eq_true, if_false, if_true]
            simp
    · rw [Bool.not_eq_true] at hsg
      simp [model_config, hdb, hsg]

/-- Counterexample to C5 as stated: a class with a plain Manager and a truthy
shard_group and sharded_by_field whose field validation fails is not given a
ShardManager, because the decorator raises before reaching the manager
handling. -/
theorem model_config_manager_counterexample :
    noShardedFieldCls.objects = some ManagerKind.plainManager ∧
    (PyStr.str "sg").truthy = true ∧ (PyStr.str "user_id").truthy = true ∧
    (model_config (PyStr.str "sg") PyStr.null (PyStr.str "user_id") sampleSettings noShardedFieldCls).cls.objects ≠ some ManagerKind.shardManager := by
  decide

/-- C5 amended: for a class with truthy shard_group and truthy
sharded_by_field, no database, that passes the field, primary-key and
get_shard validations and whose objects attribute is readable: a
ShardManager instance is kept, an exact Manager is replaced by a fresh
ShardManager which also becomes the base manager, and anything else raises
ShardedModelInitializationException. -/
theorem model_config_manager_handling (shard_group database sharded_by_field : PyStr)
    (st : Settings) (cls : ModelClass)
    (hsg : shard_group.truthy = true) (hdb : database.truthy = false)
    (hsbf : sharded_by_field.truthy = true)
    (hv1 : cls.meta_fields.filter (fun field => field.shardedIDMixin) ≠ [])
    (hv2 : cls.meta_pk ∈ cls.meta_fields.filter (fun field => field.shardedIDMixin))
    (hv3 : cls.has_get_shard = true) :
    (cls.objects = some ManagerKind.shardManager →
      (model_config shard_group database sharded_by_field st cls).cls.objects = cls.objects ∧
      (model_config shard_group database sharded_by_field st cls).cls.base_manager = cls.base_manager) ∧
    (cls.objects = some ManagerKind.plainManager →
      (model_config shard_group database sharded_by_field st cls).cls.objects = some ManagerKind.shardManager ∧
      (model_config shard_group database sharded_by_field st cls).cls.base_manager = ManagerKind.shardManager) ∧
    (cls.objects = some ManagerKind.otherManager →
      (model_config shard_group database sharded_by_field st cls).exc =
        some (PyExc.shardedModelInit "You must use the default Django model manager or your custom manager must inherit from ``ShardManager``")) := by
  have h1 := isEmpty_false_of_ne_nil hv1
  have h2 := pk_filter_isEmpty_false cls hv2
  rw [model_config_shard_branch_eq shard_group database sharded_by_field st cls hsg hdb h1 h2 hv3]
  refine ⟨fun hobj => ?_, fun hobj => ?_, fun hobj => ?_⟩ <;>
    simp [finishShardedBy_cls, hsbf, hobj]

/-- Witness for the amended C5: the plain Manager of a valid sharded class is
replaced by a ShardManager that also becomes the base manager. -/
theorem model_config_manager_handling_witness :
    (PyStr.str "sg").truthy = true ∧ (PyStr.null).truthy = false ∧ (PyStr.str "user_id").truthy = true ∧
    sampleCls.meta_fields.filter (fun field => field.shardedIDMixin) ≠ [] ∧
    sampleCls.meta_pk ∈ sampleCls.meta_fields.filter (fun field => field.shardedIDMixin) ∧
    sampleCls.has_get_shard = true ∧ sampleCls.objects = some ManagerKind.plainManager ∧
    ((model_config (PyStr.str "sg") PyStr.null (PyStr.str "user_id") sampleSettings sampleCls).cls.objects = some ManagerKind.shardManager ∧
     (model_config (PyStr.str "sg") PyStr.null (PyStr.str "user_id") sampleSettings sampleCls).cls.base_manager = ManagerKind.shardManager) :=
  ⟨by decide, by decide, by decide, by decide, by decide, by decide, by decide,
    (model_config_manager_handling (PyStr.str "sg") PyStr.null (PyStr.str "user_id") sampleSettings sampleCls
      (by decide) (by decide) (by decide) (by decide) (by decide) (by decide)).2.1 (by decide)⟩

/-- C6: when a valid sharded class with a truthy sharded_by_field passes the
manager handling, `django_sharding__sharded_by_field` is set to the given
value and ShardedModelInitializationException is raised exactly when
get_shard_from_id is not callable. -/
theorem model_config_sharded_by_field_check (shard_group database sharded_by_field : PyStr)
    (st : Settings) (cls : ModelClass)
    (hsg : shard_group.truthy = true) (hdb : database.truthy = false)
    (hsbf : sharded_by_field.truthy = true)
    (hv1 : cls.meta_fields.filter (fun field => field.shardedIDMixin) ≠ [])
    (hv2 : cls.meta_pk ∈ cls.meta_fields.filter (fun field => field.shardedIDMixin))
    (hv3 : cls.has_get_shard = true)
    (hmgr : managerHandlingOk cls = true) :
    (model_config shard_group database sharded_by_field st cls).cls.django_sharding__sharded_by_field = some sharded_by_field.val ∧
    (isShardedInit (model_config shard_group database sharded_by_field st cls).exc = true ↔
      cls.has_get_shard_from_id = false) := by
  have h1 := isEmpty_false_of_ne_nil hv1
  have h2 := pk_filter_isEmpty_false cls hv2
  rw [model_config_shard_branch_eq shard_group database sharded_by_field st cls hsg hdb h1 h2 hv3]
  rcases hobj : cls.objects with _ | mk
  · simp only [managerHandlingOk, hobj, Bool.and_eq_true, Bool.or_eq_true] at hmgr
    rcases hmgr with ⟨habs, hor⟩
    by_cases hlen : cls.abstract_managers.length > 0
    · rcases hor with hlenf | hany
      · exact absurd hlen (by simpa using hlenf)
      · cases hgsfi : cls.has_get_shard_from_id <;>
          simp [finishShardedBy_cls, finishShardedBy_exc, isShardedInit, hsbf, hobj, habs, hlen, hany, hgsfi]
    · cases hgsfi : cls.has_get_shard_from_id <;>
        simp [finishShardedBy_cls, finishShardedBy_exc, isShardedInit, hsbf, hobj, habs, hlen, hgsfi]
  · cases mk with
    | shardManager =>
        cases hgsfi : cls.has_get_shard_from_id <;>
          simp [finishShardedBy_cls, finishShardedBy_exc, isShardedInit, hsbf, hobj, hgsfi]
    | plainManager =>
        cases hgsfi : cls.has_get_shard_from_id <;>
          simp [finishShardedBy_cls, finishShardedBy_exc, isShardedInit, hsbf, hobj, hgsfi]
    | otherManager =>
        simp only [managerHandlingOk, hobj] at hmgr
        exact absurd hmgr (by decide)

/-- Witness for C6 at a valid sharded class with a callable get_shard_from_id. -/
theorem model_config_sharded_by_field_check_witness :
    (PyStr.str "sg").truthy = true ∧ (PyStr.null).truthy = false ∧ (PyStr.str "user_id").truthy = true ∧
    sampleCls.meta_fields.filter (fun field => field.shardedIDMixin) ≠ [] ∧
    sampleCls.meta_pk ∈ sampleCls.meta_fields.filter (fun field => field.shardedIDMixin) ∧
    sampleCls.has_get_shard = true ∧ managerHandlingOk sampleCls = true ∧
    ((model_config (PyStr.str "sg") PyStr.null (PyStr.str "user_id") sampleSettings sampleCls).cls.django_sharding__sharded_by_field = some "user_id" ∧
     (isShardedInit (model_config (PyStr.str "sg") PyStr.null (PyStr.str "user_id") sampleSettings sampleCls).exc = true ↔
       sampleCls.has_get_shard_from_id = false)) :=
  ⟨by decide, by decide, by decide, by decide, by decide, by decide, by decide,
    model_config_sharded_by_field_check (PyStr.str "sg") PyStr.null (PyStr.str "user_id") sampleSettings sampleCls
      (by decide) (by decide) (by decide) (by decide) (by decide) (by decide) (by decide)⟩

def noGetShardFromIdCls : ModelClass := { sampleCls with has_get_shard_from_id := false }

/-- C9: when the get_shard_from_id check fails, the raised exception leaves
the class already mutated: shard group, is-sharded and sharded-by-field
attributes are set, and a plain Manager has already been replaced. -/
theorem model_config_error_not_atomic (shard_group database sharded_by_field : PyStr)
    (st : Settings) (cls : ModelClass)
    (hsg : shard_group.truthy = true) (hdb : database.truthy = false)
    (hsbf : sharded_by_field.truthy = true)
    (hv1 : cls.meta_fields.filter (fun field => field.shardedIDMixin) ≠ [])
    (hv2 : cls.meta_pk ∈ cls.meta_fields.filter (fun field => field.shardedIDMixin))
    (hv3 : cls.has_get_shard = true)
    (hmgr : managerHandlingOk cls = true)
    (hgsfi : cls.has_get_shard_from_id = false) :
    isShardedInit (model_config shard_group database sharded_by_field st cls).exc = true ∧
    (model_config shard_group database sharded_by_field st cls).cls.django_sharding__shard_group = some shard_group.val ∧
    (model_config shard_group database sharded_by_field st cls).cls.django_sharding__is_sharded = some true ∧
    (model_config shard_group database sharded_by_field st cls).cls.django_sharding__sharded_by_field = some sharded_by_field.val ∧
    (cls.objects = some ManagerKind.plainManager →
      (model_config shard_group database sharded_by_field st cls).cls.objects = some ManagerKind.shardManager) := by
  have h1 := isEmpty_false_of_ne_nil hv1
  have h2 := pk_filter_isEmpty_false cls hv2
  rw [model_config_shard_branch_eq shard_group database sharded_by_field st cls hsg hdb h1 h2 hv3]
  rcases hobj : cls.objects with _ | mk
  · simp only [managerHandlingOk, hobj, Bool.and_eq_true, Bool.or_eq_true] at hmgr
    rcases hmgr with ⟨habs, hor⟩
    by_cases hlen : cls.abstract_managers.length > 0
    · rcases hor with hlenf | hany
      · exact absurd hlen (by simpa using hlenf)
      · simp [finishShardedBy_cls, finishShardedBy_exc, isShardedInit, hsbf, hobj, habs, hlen, hany, hgsfi]
    · simp [finishShardedBy_cls, finishShardedBy_exc, isShardedInit, hsbf, hobj, habs, hlen, hgsfi]
  · cases mk with
    | shardManager => simp [finishShardedBy_cls, finishShardedBy_exc, isShardedInit, hsbf, hobj, hgsfi]
    | plainManager => simp [finishShardedBy_cls, finishShardedBy_exc, isShardedInit, hsbf, hobj, hgsfi]
    | otherManager =>
        simp only [managerHandlingOk, hobj] at hmgr
        exact absurd hmgr (by decide)

/-- Witness for C9: a valid sharded class lacking get_shard_from_id keeps the
already-applied mutations when the exception is raised. -/
theorem model_config_error_not_atomic_witness :
    (PyStr.str "sg").truthy = true ∧ (PyStr.null).truthy = false ∧ (PyStr.str "user_id").truthy = true ∧
    noGetShardFromIdCls.meta_fields.filter (fun field => field.shardedIDMixin) ≠ [] ∧
    noGetShardFromIdCls.meta_pk ∈ noGetShardFromIdCls.meta_fields.filter (fun field => field.shardedIDMixin) ∧
    noGetShardFromIdCls.has_get_shard = true ∧ managerHandlingOk noGetShardFromIdCls = true ∧
    noGetShardFromIdCls.has_get_shard_from_id = false ∧
    (isShardedInit (model_config (PyStr.str "sg") PyStr.null (PyStr.str "user_id") sampleSettings noGetShardFromIdCls).exc = true ∧
     (model_config (PyStr.str "sg") PyStr.null (PyStr.str "user_id") sampleSettings noGetShardFromIdCls).cls.django_sharding__shard_group = some "sg" ∧
     (model_config (PyStr.str "sg") PyStr.null (PyStr.str "user_id") sampleSettings noGetShardFromIdCls).cls.django_sharding__is_sharded = some true ∧
     (model_config (PyStr.str "sg") PyStr.null (PyStr.str "user_id") sampleSettings noGetShardFromIdCls).cls.django_sharding__sharded_by_field = some "user_id" ∧
     (noGetShardFromIdCls.objects = some ManagerKind.plainManager →
       (model_config (PyStr.str "sg") PyStr.null (PyStr.str "user_id") sampleSettings noGetShardFromIdCls).cls.objects = some ManagerKind.shardManager)) :=
  ⟨by decide, by decide, by decide, by decide, by decide, by decide, by decide, by decide,
    model_config_error_not_atomic (PyStr.str "sg") PyStr.null (PyStr.str "user_id") sampleSettings noGetShardFromIdCls
      (by decide) (by decide) (by decide) (by decide) (by decide) (by decide) (by decide) (by decide)⟩
